import Mathlib

/-!
Shallow embedding of the MLOps repository's two scripts,
`src/train.py` and `src/evaluate.py`, for checking the
natural-language specification against the code.

Modelling conventions:
* A directory's contents are a `List String` of relative file paths in
  filesystem-listing order; `glob` results keep that order, so "the first
  candidate" is the head of the filtered list.
* Python exceptions become an explicit `PyError` value carried in `Except`.
* Tabular data (`pandas` dataframes) become `List α` of rows; `pd.concat`
  with `ignore_index=True` becomes list concatenation.
* Numeric values use `ℚ` (the claims under study are structural, not about
  floating-point rounding).
-/

/-- Python exception values relevant to the scripts: `FileNotFoundError`
(raised by `find_or_extract_model`), `ValueError` (raised by the data
loaders), and any other exception (e.g. from `joblib.load`), each carrying
its message. -/
inductive PyError where
  | fileNotFoundError (msg : String)
  | valueError (msg : String)
  | otherError (msg : String)
deriving Repr, DecidableEq

/-- Python's `str.endswith`: whether `suf` is a suffix of `s` (stated on
the character lists so concrete instances evaluate). -/
def strEndsWith (s suf : String) : Bool :=
  suf.data.isSuffixOf s.data

/-- Split a character list at a separator, keeping empty pieces, as path
strings split at `/`. -/
def splitChars (sep : Char) : List Char → List (List Char)
  | [] => [[]]
  | c :: cs =>
    let rest := splitChars sep cs
    if c = sep then [] :: rest
    else
      match rest with
      | r :: rs => (c :: r) :: rs
      | [] => [[c]]

/-- Relative path split into components, as `glob` treats `/`. -/
def pathComponents (p : String) : List (List Char) :=
  splitChars '/' p.data

/-- Python's `glob` patterns `*` and `**` do not match names whose
component starts with a dot; a path is glob-visible when no component is
hidden. -/
def globVisible (p : String) : Bool :=
  (pathComponents p).all (fun c => c.head? ≠ some '.')

/-- Embeds `glob(os.path.join(model_dir, "**", "*.joblib"), recursive=True)`:
the files anywhere under the directory whose basename matches `*.joblib`,
in listing order (evaluate.py lines 47 and 64). -/
def joblibGlob (files : List String) : List String :=
  files.filter (fun f => globVisible f && strEndsWith f ".joblib")

/-- Embeds `glob(os.path.join(model_dir, "*.tar.gz"))`: the files directly in the
directory (single path component) matching `*.tar.gz`, in listing order
(evaluate.py line 53). -/
def tarGlob (files : List String) : List String :=
  files.filter (fun f =>
    globVisible f && strEndsWith f ".tar.gz" && (pathComponents f).length == 1)

/-- The model directory's filesystem state: its file listing plus, for each
archive file, the member paths it would extract. -/
structure FS where
  files : List String
  tarContents : String → List String
deriving Inhabited

/-- Embeds `tarfile.extractall(path=model_dir)` (evaluate.py lines 60-61): the
archive's members appear in the directory; members whose path already
exists overwrite in place and do not duplicate the listing entry. -/
def extractAll (fs : FS) (tarName : String) : FS :=
  { fs with
    files := fs.files ++ (fs.tarContents tarName).filter
      (fun m => ¬ fs.files.contains m) }

/-- Embeds `find_or_extract_model` (evaluate.py lines 40-71): look for a
`*.joblib` anywhere under `model_dir`; if none, look for a `*.tar.gz`
directly in `model_dir`, raising `FileNotFoundError` when absent;
otherwise extract the first archive and search again, raising
`FileNotFoundError` (with a post-extraction message) when the second
search is empty.  Returns the possibly-updated filesystem state and the
path of the model found. -/
def find_or_extract_model (fs : FS) (model_dir : String) :
    Except PyError (FS × String) :=
  match joblibGlob fs.files with
  | c :: _ => .ok (fs, model_dir ++ "/" ++ c)
  | [] =>
    match tarGlob fs.files with
    | [] => .error (.fileNotFoundError
        ("No .joblib or .tar.gz model files found in " ++ model_dir))
    | t :: _ =>
      let tar_path := model_dir ++ "/" ++ t
      let fs2 := extractAll fs t
      match joblibGlob fs2.files with
      | c :: _ => .ok (fs2, model_dir ++ "/" ++ c)
      | [] => .error (.fileNotFoundError
          ("After extracting " ++ tar_path ++ ", no .joblib model found in "
            ++ model_dir))

/-- A path handed to a loader is either a directory (a listing of file
names paired with the table `pd.read_csv` would parse from each file) or a
single file with its parsed table.  Rows are abstract (`α`): the loaders
do no schema validation. -/
inductive PathContent (α : Type) where
  | dir (entries : List (String × List α))
  | file (table : List α)

/-- Embeds `load_data` (evaluate.py lines 25-37): on a directory, parse every
file whose name ends in `.csv` in listing order and concatenate row-wise
(`pd.concat(frames, ignore_index=True)`), raising `ValueError` when no
file matches; on a single file, parse it directly. -/
def load_data {α : Type} (path : PathContent α) : Except PyError (List α) :=
  match path with
  | .dir entries =>
    let frames := (entries.filter (fun e => strEndsWith e.1 ".csv")).map Prod.snd
    if frames.isEmpty then
      .error (.valueError "No CSV files found in directory")
    else
      .ok frames.flatten
  | .file table => .ok table

/-- Embeds `load_training_data` (train.py lines 23-40): textually the same
algorithm as the Evaluator's `load_data`, embedded separately because it
is a separate source function. -/
def load_training_data {α : Type} (path : PathContent α) :
    Except PyError (List α) :=
  match path with
  | .dir entries =>
    let frames := (entries.filter (fun e => strEndsWith e.1 ".csv")).map Prod.snd
    if frames.isEmpty then
      .error (.valueError "No CSV files found in directory")
    else
      .ok frames.flatten
  | .file table => .ok table

/-- Python's `a or b` on strings: `a` when it is truthy (non-empty),
otherwise `b`. -/
def pyOr (a b : String) : String :=
  if a = "" then b else a

/-- Evaluator CLI arguments after `parse_args` (evaluate.py lines 15-22). -/
structure EvalArgs where
  model_dir : String
  test_data : String
  output_dir : String
deriving Repr, DecidableEq

/-- Embeds `parse_args` of evaluate.py: each argument takes the value given on
the command line when present, and its (non-empty) default otherwise. -/
def eval_parse_args (cli_model_dir cli_test_data cli_output_dir :
    Option String) : EvalArgs :=
  { model_dir := cli_model_dir.getD "/opt/ml/model"
    test_data := cli_test_data.getD "/opt/ml/input/data/test"
    output_dir := cli_output_dir.getD "/opt/ml/output" }

/-- The SageMaker environment variables the two scripts consult; `none`
means unset. -/
structure SMEnv where
  SM_MODEL_DIR : Option String
  SM_CHANNEL_TEST : Option String
  SM_OUTPUT_DATA_DIR : Option String
  SM_CHANNEL_TRAIN : Option String
deriving Repr, DecidableEq

/-- Path resolution in the Evaluator's `main` (evaluate.py lines 80-82):
`args.model_dir or os.environ.get("SM_MODEL_DIR", "/opt/ml/model")`,
and likewise for the test channel and output directory. -/
def eval_resolve_paths (args : EvalArgs) (env : SMEnv) :
    String × String × String :=
  ( pyOr args.model_dir (env.SM_MODEL_DIR.getD "/opt/ml/model")
  , pyOr args.test_data (env.SM_CHANNEL_TEST.getD "/opt/ml/input/data/test")
  , pyOr args.output_dir (env.SM_OUTPUT_DATA_DIR.getD "/opt/ml/output") )

/-- Trainer CLI arguments after `parse_args` (train.py lines 13-20). -/
structure TrainArgs where
  train_data : String
  model_dir : String
deriving Repr, DecidableEq

/-- Embeds `parse_args` of train.py. -/
def train_parse_args (cli_train_data cli_model_dir : Option String) :
    TrainArgs :=
  { train_data := cli_train_data.getD "/opt/ml/input/data/train"
    model_dir := cli_model_dir.getD "/opt/ml/model" }

/-- Path resolution in the Trainer's `main` (train.py lines 48-53):
the CLI argument is taken first, then unconditionally replaced by
`os.environ.get("SM_CHANNEL_TRAIN", train_path)` and
`os.environ.get("SM_MODEL_DIR", model_dir)`. -/
def train_resolve_paths (args : TrainArgs) (env : SMEnv) :
    String × String :=
  ( env.SM_CHANNEL_TRAIN.getD args.train_data
  , env.SM_MODEL_DIR.getD args.model_dir )

/-- One test-data row with the fixed schema the scripts select:
feature columns `size_sqft`, `num_rooms`, `age_years` and target column
`price`. -/
structure Row where
  size_sqft : ℚ
  num_rooms : ℚ
  age_years : ℚ
  price : ℚ
deriving Repr, DecidableEq

/-- The three feature columns, as selected by
`df[["size_sqft", "num_rooms", "age_years"]]` (evaluate.py line 134). -/
structure Features where
  size_sqft : ℚ
  num_rooms : ℚ
  age_years : ℚ
deriving Repr, DecidableEq

/-- Column selection of the feature columns from a row. -/
def selectFeatures (r : Row) : Features :=
  { size_sqft := r.size_sqft, num_rooms := r.num_rooms
    age_years := r.age_years }

/-- Embeds `sklearn.metrics.mean_squared_error`: the mean of the squared
differences between true values and predictions. -/
def mean_squared_error (y preds : List ℚ) : ℚ :=
  (List.zipWith (fun a b => (a - b) ^ 2) y preds).sum / (y.length : ℚ)

/-- A file written into the Evaluator's output directory: either the
structured metrics record of `metrics.json` (a JSON object modelled as an
association list from key to numeric value) or a plain-text log file. -/
inductive OutFile where
  | metrics (record : List (String × ℚ))
  | log (msg : String)
deriving Repr, DecidableEq

/-- Message carried by an exception (what `str(e)` / the traceback text is
built from). -/
def pyErrorMsg : PyError → String
  | .fileNotFoundError m => m
  | .valueError m => m
  | .otherError m => m

/-- Whether an exception is a `FileNotFoundError`, the class matched by the
inner `except FileNotFoundError` handler of evaluate.py line 112. -/
def isFileNotFoundError : PyError → Bool
  | .fileNotFoundError _ => true
  | _ => false

/-- The whole outside world an Evaluator run reads: the command line, the
environment, the filesystem state of the directory that path resolution
will name as the model directory, the deserializer (`joblib.load`, which
may fail and otherwise yields a prediction function), and the content at
the resolved test-data path. -/
structure EvalInput where
  cli_model_dir : Option String
  cli_test_data : Option String
  cli_output_dir : Option String
  env : SMEnv
  modelDirFS : FS
  loadModel : String → Except PyError (Features → ℚ)
  testData : PathContent Row

/-- The path triple the Evaluator resolves for a given run (evaluate.py
lines 76-82). -/
def resolvedPaths (inp : EvalInput) : String × String × String :=
  eval_resolve_paths
    (eval_parse_args inp.cli_model_dir inp.cli_test_data inp.cli_output_dir)
    inp.env

/-- The model directory an Evaluator run resolves. -/
def resolvedModelDir (inp : EvalInput) : String :=
  (resolvedPaths inp).1

/-- The output directory an Evaluator run resolves. -/
def resolvedOutputDir (inp : EvalInput) : String :=
  (resolvedPaths inp).2.2

/-- Embeds `main` of evaluate.py (lines 74-162): resolve paths, resolve
the model artifact, deserialize it, load test data, select columns,
predict, compute the MSE and write `metrics.json`.  The first component
lists the files written into the output directory in order; the second is
the process outcome (the exception is re-raised after logging, so an
error outcome terminates the run).  A `FileNotFoundError` from model
resolution first writes `model_not_found.log` in the inner handler, then
`evaluation_error.log` in the outer catch-all; any other failure writes
only `evaluation_error.log`. -/
def evaluate_main (inp : EvalInput) :
    List (String × OutFile) × Except PyError (List (String × ℚ)) :=
  let model_dir := resolvedModelDir inp
  let output_dir := resolvedOutputDir inp
  match find_or_extract_model inp.modelDirFS model_dir with
  | .error e =>
    let tb := pyErrorMsg e ++
      "\nDirectory listings above indicate what is present."
    ( [ (output_dir ++ "/model_not_found.log", .log tb)
      , (output_dir ++ "/evaluation_error.log", .log (pyErrorMsg e)) ]
    , .error e)
  | .ok (_, model_path) =>
    match inp.loadModel model_path with
    | .error e =>
      ([(output_dir ++ "/evaluation_error.log", .log (pyErrorMsg e))],
        .error e)
    | .ok model =>
      match load_data inp.testData with
      | .error e =>
        ([(output_dir ++ "/evaluation_error.log", .log (pyErrorMsg e))],
          .error e)
      | .ok df =>
        let X := df.map selectFeatures
        let y := df.map Row.price
        let preds := X.map model
        let mse := mean_squared_error y preds
        let metrics := [("mse", mse)]
        ([(output_dir ++ "/metrics.json", .metrics metrics)], .ok metrics)

/-- C2: in the Evaluator, explicit CLI arguments are authoritative for the
model-dir, test-data and output-dir paths; the SageMaker environment
variables are a fallback only when the argument value is empty.  For every
run with a non-empty argument, the resolved path equals that argument and
is therefore unaffected by the environment (`env` is universally
quantified and absent from the conclusion). -/
theorem C2_cli_args_authoritative (args : EvalArgs) (env : SMEnv) :
    (args.model_dir ≠ "" →
      (eval_resolve_paths args env).1 = args.model_dir) ∧
    (args.test_data ≠ "" →
      (eval_resolve_paths args env).2.1 = args.test_data) ∧
    (args.output_dir ≠ "" →
      (eval_resolve_paths args env).2.2 = args.output_dir) := by
  refine ⟨fun h => ?_, fun h => ?_, fun h => ?_⟩ <;>
    simp [eval_resolve_paths, pyOr, h]

/-- Witness for C2 at a concrete run: non-empty CLI arguments win over a
set environment. -/
theorem C2_cli_args_authoritative_witness :
    (eval_resolve_paths ⟨"/a", "/b", "/c"⟩
      ⟨some "/envm", some "/envt", some "/envo", none⟩).1 = "/a" ∧
    (eval_resolve_paths ⟨"/a", "/b", "/c"⟩
      ⟨some "/envm", some "/envt", some "/envo", none⟩).2.1 = "/b" ∧
    (eval_resolve_paths ⟨"/a", "/b", "/c"⟩
      ⟨some "/envm", some "/envt", some "/envo", none⟩).2.2 = "/c" := by
  have h := C2_cli_args_authoritative ⟨"/a", "/b", "/c"⟩
    ⟨some "/envm", some "/envt", some "/envo", none⟩
  exact ⟨h.1 (by decide), h.2.1 (by decide), h.2.2 (by decide)⟩

/-- C5: a directory with zero files whose names end in `.csv` makes both
loaders fail with the `NoDataFound` error (`ValueError` in the code) and
return no dataset. -/
theorem C5_no_csv_no_data {α : Type} (entries : List (String × List α))
    (h : entries.filter (fun e => strEndsWith e.1 ".csv") = []) :
    load_data (.dir entries) =
      .error (.valueError "No CSV files found in directory") ∧
    load_training_data (.dir entries) =
      .error (.valueError "No CSV files found in directory") := by
  constructor <;> simp [load_data, load_training_data, h]

/-- Witness for C5 on a concrete directory holding one non-CSV file. -/
theorem C5_no_csv_no_data_witness :
    load_data (.dir [("notes.txt", ([] : List ℚ))]) =
      .error (.valueError "No CSV files found in directory") ∧
    load_training_data (.dir [("notes.txt", ([] : List ℚ))]) =
      .error (.valueError "No CSV files found in directory") :=
  C5_no_csv_no_data [("notes.txt", ([] : List ℚ))] (by decide)

/-- C6: in the Trainer, environment-supplied paths override the CLI
arguments: when `SM_CHANNEL_TRAIN` (resp. `SM_MODEL_DIR`) is set, its
value is the training-data path (resp. model directory) regardless of the
argument, and the argument is used only when the variable is unset. -/
theorem C6_train_env_overrides (args : TrainArgs) (env : SMEnv) :
    (∀ v, env.SM_CHANNEL_TRAIN = some v →
      (train_resolve_paths args env).1 = v) ∧
    (env.SM_CHANNEL_TRAIN = none →
      (train_resolve_paths args env).1 = args.train_data) ∧
    (∀ v, env.SM_MODEL_DIR = some v →
      (train_resolve_paths args env).2 = v) ∧
    (env.SM_MODEL_DIR = none →
      (train_resolve_paths args env).2 = args.model_dir) := by
  refine ⟨fun v hv => ?_, fun hn => ?_, fun v hv => ?_, fun hn => ?_⟩
  · simp [train_resolve_paths, hv]
  · simp [train_resolve_paths, hn]
  · simp [train_resolve_paths, hv]
  · simp [train_resolve_paths, hn]

/-- Witness for C6 at a concrete run: the environment value replaces a
different CLI value, and with the variable unset the CLI value is used. -/
theorem C6_train_env_overrides_witness :
    (train_resolve_paths ⟨"/cli/train", "/cli/model"⟩
      ⟨some "/env/model", none, none, some "/env/train"⟩).1 = "/env/train" ∧
    (train_resolve_paths ⟨"/cli/train", "/cli/model"⟩
      ⟨some "/env/model", none, none, some "/env/train"⟩).2 = "/env/model" ∧
    (train_resolve_paths ⟨"/cli/train", "/cli/model"⟩
      ⟨none, none, none, none⟩).1 = "/cli/train" := by
  refine ⟨?_, ?_, ?_⟩
  · exact (C6_train_env_overrides ⟨"/cli/train", "/cli/model"⟩
      ⟨some "/env/model", none, none, some "/env/train"⟩).1 "/env/train" rfl
  · exact (C6_train_env_overrides ⟨"/cli/train", "/cli/model"⟩
      ⟨some "/env/model", none, none, some "/env/train"⟩).2.2.1 "/env/model" rfl
  · exact (C6_train_env_overrides ⟨"/cli/train", "/cli/model"⟩
      ⟨none, none, none, none⟩).2.1 rfl

/-- Helper: when the recursive search finds a candidate, resolution
returns it at once and the filesystem is untouched. -/
lemma find_head (fs : FS) (model_dir c : String) (rest : List String)
    (hc : joblibGlob fs.files = c :: rest) :
    find_or_extract_model fs model_dir = .ok (fs, model_dir ++ "/" ++ c) := by
  unfold find_or_extract_model
  rw [hc]

/-- Helper: with no candidate and no archive, resolution raises
`FileNotFoundError`. -/
lemma find_no_candidates (fs : FS) (model_dir : String)
    (hj : joblibGlob fs.files = []) (ht : tarGlob fs.files = []) :
    find_or_extract_model fs model_dir = .error (.fileNotFoundError
      ("No .joblib or .tar.gz model files found in " ++ model_dir)) := by
  unfold find_or_extract_model
  rw [hj, ht]

/-- Helper: with no candidate but an archive whose extraction yields a
candidate, resolution extracts and returns the first candidate of the
re-run search. -/
lemma find_extract_ok (fs : FS) (model_dir t c : String)
    (ts cs : List String)
    (hj : joblibGlob fs.files = [])
    (ht : tarGlob fs.files = t :: ts)
    (hx : joblibGlob (extractAll fs t).files = c :: cs) :
    find_or_extract_model fs model_dir =
      .ok (extractAll fs t, model_dir ++ "/" ++ c) := by
  unfold find_or_extract_model
  rw [hj, ht]
  simp only [hx]

/-- Helper: with no candidate, an archive, and still no candidate after
extraction, resolution raises the post-extraction `FileNotFoundError`. -/
lemma find_extract_fail (fs : FS) (model_dir t : String) (ts : List String)
    (hj : joblibGlob fs.files = [])
    (ht : tarGlob fs.files = t :: ts)
    (hx : joblibGlob (extractAll fs t).files = []) :
    find_or_extract_model fs model_dir = .error (.fileNotFoundError
      ("After extracting " ++ (model_dir ++ "/" ++ t) ++
        ", no .joblib model found in " ++ model_dir)) := by
  unfold find_or_extract_model
  rw [hj, ht]
  simp only [hx]

/-- C1: the Resolver follows the ordered, first-match-wins algorithm of
the spec: first the recursive search for the native serialization
extension, returning its first hit; only then the non-recursive archive
search, failing with `ModelNotFound` when it is empty too; otherwise the
first archive is extracted into the model directory in place and the
recursive search is re-run. -/
theorem C1_resolver_ordered_algorithm (fs : FS) (model_dir : String) :
    (∀ c rest, joblibGlob fs.files = c :: rest →
      find_or_extract_model fs model_dir = .ok (fs, model_dir ++ "/" ++ c)) ∧
    (joblibGlob fs.files = [] → tarGlob fs.files = [] →
      find_or_extract_model fs model_dir = .error (.fileNotFoundError
        ("No .joblib or .tar.gz model files found in " ++ model_dir))) ∧
    (∀ t ts, joblibGlob fs.files = [] → tarGlob fs.files = t :: ts →
      ((∃ c cs, joblibGlob (extractAll fs t).files = c :: cs ∧
          find_or_extract_model fs model_dir =
            .ok (extractAll fs t, model_dir ++ "/" ++ c)) ∨
        (joblibGlob (extractAll fs t).files = [] ∧
          find_or_extract_model fs model_dir = .error (.fileNotFoundError
            ("After extracting " ++ (model_dir ++ "/" ++ t) ++
              ", no .joblib model found in " ++ model_dir))))) := by
  refine ⟨fun c rest hc => find_head fs model_dir c rest hc,
    fun hj ht => find_no_candidates fs model_dir hj ht,
    fun t ts hj ht => ?_⟩
  cases hx : joblibGlob (extractAll fs t).files with
  | nil => exact Or.inr ⟨rfl, find_extract_fail fs model_dir t ts hj ht hx⟩
  | cons c cs =>
    exact Or.inl ⟨c, cs, rfl, find_extract_ok fs model_dir t c ts cs hj ht hx⟩

/-- Witness for C1 on three concrete model directories: one holding a
model file, one holding nothing relevant, one holding only an archive. -/
theorem C1_resolver_ordered_algorithm_witness :
    find_or_extract_model ⟨["m.joblib"], fun _ => []⟩ "/opt/ml/model" =
      .ok (⟨["m.joblib"], fun _ => []⟩, "/opt/ml/model" ++ "/" ++ "m.joblib") ∧
    find_or_extract_model ⟨["x.txt"], fun _ => []⟩ "/opt/ml/model" =
      .error (.fileNotFoundError
        ("No .joblib or .tar.gz model files found in " ++ "/opt/ml/model")) ∧
    ((∃ c cs, joblibGlob (extractAll ⟨["m.tar.gz"], fun _ => ["model.joblib"]⟩
          "m.tar.gz").files = c :: cs ∧
        find_or_extract_model ⟨["m.tar.gz"], fun _ => ["model.joblib"]⟩
            "/opt/ml/model" =
          .ok (extractAll ⟨["m.tar.gz"], fun _ => ["model.joblib"]⟩ "m.tar.gz",
            "/opt/ml/model" ++ "/" ++ c)) ∨
      (joblibGlob (extractAll ⟨["m.tar.gz"], fun _ => ["model.joblib"]⟩
          "m.tar.gz").files = [] ∧
        find_or_extract_model ⟨["m.tar.gz"], fun _ => ["model.joblib"]⟩
            "/opt/ml/model" = .error (.fileNotFoundError
          ("After extracting " ++ ("/opt/ml/model" ++ "/" ++ "m.tar.gz") ++
            ", no .joblib model found in " ++ "/opt/ml/model")))) := by
  refine ⟨?_, ?_, ?_⟩
  · exact (C1_resolver_ordered_algorithm ⟨["m.joblib"], fun _ => []⟩
      "/opt/ml/model").1 "m.joblib" [] (by decide)
  · exact (C1_resolver_ordered_algorithm ⟨["x.txt"], fun _ => []⟩
      "/opt/ml/model").2.1 (by decide) (by decide)
  · exact (C1_resolver_ordered_algorithm
      ⟨["m.tar.gz"], fun _ => ["model.joblib"]⟩ "/opt/ml/model").2.2
      "m.tar.gz" [] (by decide) (by decide)

/-- C3: for a directory with at least one `.csv` part, both loaders
return the row-wise concatenation of the matching parts in listing order
(non-matching files are ignored), and the row count of the result is the
sum of the row counts of the parts. -/
theorem C3_dir_concat_rows {α : Type} (entries : List (String × List α))
    (h : entries.filter (fun e => strEndsWith e.1 ".csv") ≠ []) :
    ∃ t : List α,
      load_data (.dir entries) = .ok t ∧
      load_training_data (.dir entries) = .ok t ∧
      t = ((entries.filter (fun e => strEndsWith e.1 ".csv")).map
        Prod.snd).flatten ∧
      t.length = ((entries.filter (fun e => strEndsWith e.1 ".csv")).map
        (fun e => e.2.length)).sum := by
  obtain ⟨a, as, ha⟩ := List.exists_cons_of_ne_nil h
  refine ⟨_, ?_, ?_, rfl, ?_⟩
  · simp [load_data, ha]
  · simp [load_training_data, ha]
  · rw [List.length_flatten, List.map_map]
    rfl

/-- Witness for C3 on a concrete directory holding two CSV parts and one
ignored file: three rows come out, 2 + 1. -/
theorem C3_dir_concat_rows_witness :
    ∃ t : List Nat,
      load_data (.dir [("a.csv", [10, 20]), ("notes.txt", [99]),
        ("b.csv", [30])]) = .ok t ∧
      load_training_data (.dir [("a.csv", [10, 20]), ("notes.txt", [99]),
        ("b.csv", [30])]) = .ok t ∧
      t = (([("a.csv", [10, 20]), ("notes.txt", [99]),
        ("b.csv", [30])].filter (fun e => strEndsWith e.1 ".csv")).map
          Prod.snd).flatten ∧
      t.length = (([("a.csv", [10, 20]), ("notes.txt", [99]),
        ("b.csv", [30])].filter (fun e => strEndsWith e.1 ".csv")).map
          (fun e => e.2.length)).sum :=
  C3_dir_concat_rows
    [("a.csv", [10, 20]), ("notes.txt", [99]), ("b.csv", [30])] (by decide)

/-- C9 counterexample: the fallback branch is reachable, because an
argument can be passed as the empty string.  Two runs with equal CLI
arguments (`--model-dir` explicitly empty) resolve different model
directories under different environments, refuting the claimed
environment-independence. -/
theorem C9_env_noninterference_counterexample :
    (eval_resolve_paths (eval_parse_args (some "") none none)
      ⟨some "/A", none, none, none⟩).1 = "/A" ∧
    eval_resolve_paths (eval_parse_args (some "") none none)
        ⟨some "/A", none, none, none⟩ ≠
      eval_resolve_paths (eval_parse_args (some "") none none)
        ⟨some "/B", none, none, none⟩ := by
  constructor
  · decide
  · decide

/-- C9 amended: the defaults are non-empty, so the fallback branch is
unreachable as long as no CLI argument is explicitly the empty string;
for any two runs whose CLI arguments are equal and not empty strings, the
resolved paths coincide whatever the environment holds. -/
theorem C9_env_noninterference (cm ct co : Option String)
    (env1 env2 : SMEnv)
    (hm : cm ≠ some "") (ht : ct ≠ some "") (ho : co ≠ some "") :
    eval_resolve_paths (eval_parse_args cm ct co) env1 =
      eval_resolve_paths (eval_parse_args cm ct co) env2 := by
  have h1 : (eval_parse_args cm ct co).model_dir ≠ "" := by
    cases cm with
    | none => simp [eval_parse_args]
    | some s =>
      simp only [eval_parse_args, Option.getD_some]
      exact fun hs => hm (by rw [hs])
  have h2 : (eval_parse_args cm ct co).test_data ≠ "" := by
    cases ct with
    | none => simp [eval_parse_args]
    | some s =>
      simp only [eval_parse_args, Option.getD_some]
      exact fun hs => ht (by rw [hs])
  have h3 : (eval_parse_args cm ct co).output_dir ≠ "" := by
    cases co with
    | none => simp [eval_parse_args]
    | some s =>
      simp only [eval_parse_args, Option.getD_some]
      exact fun hs => ho (by rw [hs])
  simp [eval_resolve_paths, pyOr, h1, h2, h3]

/-- Witness for the amended C9: with `--model-dir /m` given and the other
arguments at their defaults, two opposite environments resolve the same
paths. -/
theorem C9_env_noninterference_witness :
    eval_resolve_paths (eval_parse_args (some "/m") none none)
        ⟨some "/A", some "/B", some "/C", none⟩ =
      eval_resolve_paths (eval_parse_args (some "/m") none none)
        ⟨none, none, none, some "/D"⟩ :=
  C9_env_noninterference (some "/m") none none
    ⟨some "/A", some "/B", some "/C", none⟩
    ⟨none, none, none, some "/D"⟩ (by decide) (by decide) (by decide)

/-- C7: extraction idempotence of the Resolver.  On a directory holding
only an archive whose contents include a model file, the first call
extracts the archive in place and returns a model path; a second call on
the resulting directory returns a model path (the same one) with the
filesystem state returned unchanged — no extraction is performed, because
the direct recursive search succeeds first. -/
theorem C7_resolve_extract_idempotent (fs : FS) (model_dir t c : String)
    (cs : List String)
    (hfs : fs.files = [t])
    (hj : joblibGlob fs.files = [])
    (htar : tarGlob fs.files = [t])
    (hne : t ∉ fs.tarContents t)
    (hcontents : joblibGlob (fs.tarContents t) = c :: cs) :
    find_or_extract_model fs model_dir =
      .ok (extractAll fs t, model_dir ++ "/" ++ c) ∧
    (extractAll fs t).files = t :: fs.tarContents t ∧
    find_or_extract_model (extractAll fs t) model_dir =
      .ok (extractAll fs t, model_dir ++ "/" ++ c) := by
  have hfilter : (fs.tarContents t).filter
      (fun m => ¬ fs.files.contains m) = fs.tarContents t := by
    apply List.filter_eq_self.mpr
    intro m hm
    have hmt : m ≠ t := fun h => hne (h ▸ hm)
    simp [hfs, hmt]
  have hfx : (extractAll fs t).files = t :: fs.tarContents t := by
    show fs.files ++ _ = _
    rw [hfilter, hfs]
    rfl
  have hpt : ¬ ((globVisible t && strEndsWith t ".joblib") = true) := by
    have hall := List.filter_eq_nil_iff.mp (hfs ▸ hj)
    exact hall t (by simp)
  have hjx : joblibGlob (extractAll fs t).files = c :: cs := by
    rw [hfx]
    show List.filter (fun f => globVisible f && strEndsWith f ".joblib")
      (t :: fs.tarContents t) = c :: cs
    rw [List.filter_cons, if_neg hpt]
    exact hcontents
  refine ⟨find_extract_ok fs model_dir t c [] cs hj htar hjx, hfx, ?_⟩
  exact find_head (extractAll fs t) model_dir c cs hjx

/-- Witness for C7: a directory holding only `m.tar.gz` which contains
`model.joblib`; both calls return the extracted model's path and the
second leaves the state fixed. -/
theorem C7_resolve_extract_idempotent_witness :
    find_or_extract_model ⟨["m.tar.gz"], fun _ => ["model.joblib"]⟩
        "/opt/ml/model" =
      .ok (extractAll ⟨["m.tar.gz"], fun _ => ["model.joblib"]⟩ "m.tar.gz",
        "/opt/ml/model" ++ "/" ++ "model.joblib") ∧
    (extractAll ⟨["m.tar.gz"], fun _ => ["model.joblib"]⟩ "m.tar.gz").files =
      "m.tar.gz" :: ["model.joblib"] ∧
    find_or_extract_model
        (extractAll ⟨["m.tar.gz"], fun _ => ["model.joblib"]⟩ "m.tar.gz")
        "/opt/ml/model" =
      .ok (extractAll ⟨["m.tar.gz"], fun _ => ["model.joblib"]⟩ "m.tar.gz",
        "/opt/ml/model" ++ "/" ++ "model.joblib") :=
  C7_resolve_extract_idempotent ⟨["m.tar.gz"], fun _ => ["model.joblib"]⟩
    "/opt/ml/model" "m.tar.gz" "model.joblib" []
    rfl (by decide) (by decide) (by decide) (by decide)

/-- Helper: a non-empty right part makes a concatenation non-empty. -/
lemma append_ne_empty_right (a b : String) (hb : b ≠ "") : a ++ b ≠ "" := by
  intro h
  apply hb
  have hd := congrArg String.data h
  rw [String.data_append] at hd
  exact String.ext (List.append_eq_nil.mp hd).2

/-- Helper: the run of `main` when model resolution raises — the inner
handler writes `model_not_found.log`, the outer catch-all adds
`evaluation_error.log`, and the exception is re-raised. -/
lemma evaluate_main_find_error (inp : EvalInput) (e : PyError)
    (hfind : find_or_extract_model inp.modelDirFS (resolvedModelDir inp) =
      .error e) :
    evaluate_main inp =
      ([ (resolvedOutputDir inp ++ "/model_not_found.log",
          .log (pyErrorMsg e ++
            "\nDirectory listings above indicate what is present."))
       , (resolvedOutputDir inp ++ "/evaluation_error.log",
          .log (pyErrorMsg e)) ],
       .error e) := by
  unfold evaluate_main
  simp only [hfind]

/-- Helper: the run of `main` when deserialization raises — only
`evaluation_error.log` is written and the exception is re-raised. -/
lemma evaluate_main_load_model_error (inp : EvalInput) (fs2 : FS)
    (mp : String) (e : PyError)
    (hfind : find_or_extract_model inp.modelDirFS (resolvedModelDir inp) =
      .ok (fs2, mp))
    (hload : inp.loadModel mp = .error e) :
    evaluate_main inp =
      ([(resolvedOutputDir inp ++ "/evaluation_error.log",
         .log (pyErrorMsg e))], .error e) := by
  unfold evaluate_main
  simp only [hfind, hload]

/-- Helper: the run of `main` when test-data loading raises — only
`evaluation_error.log` is written and the exception is re-raised. -/
lemma evaluate_main_data_error (inp : EvalInput) (fs2 : FS) (mp : String)
    (model : Features → ℚ) (e : PyError)
    (hfind : find_or_extract_model inp.modelDirFS (resolvedModelDir inp) =
      .ok (fs2, mp))
    (hload : inp.loadModel mp = .ok model)
    (hdata : load_data inp.testData = .error e) :
    evaluate_main inp =
      ([(resolvedOutputDir inp ++ "/evaluation_error.log",
         .log (pyErrorMsg e))], .error e) := by
  unfold evaluate_main
  simp only [hfind, hload, hdata]

/-- Helper: the successful run of `main` — the single write is
`metrics.json` holding the one-key record, and its value is the MSE of
the model's predictions on the selected features against the target. -/
lemma evaluate_main_success (inp : EvalInput) (fs2 : FS) (mp : String)
    (model : Features → ℚ) (df : List Row)
    (hfind : find_or_extract_model inp.modelDirFS (resolvedModelDir inp) =
      .ok (fs2, mp))
    (hload : inp.loadModel mp = .ok model)
    (hdata : load_data inp.testData = .ok df) :
    evaluate_main inp =
      ([(resolvedOutputDir inp ++ "/metrics.json",
         .metrics [("mse", mean_squared_error (df.map Row.price)
           ((df.map selectFeatures).map model))])],
       .ok [("mse", mean_squared_error (df.map Row.price)
         ((df.map selectFeatures).map model))]) := by
  unfold evaluate_main
  simp only [hfind, hload, hdata]

/-- C4: a model directory with neither a serialized model file nor an
archive makes the run fail with `ModelNotFound` (`FileNotFoundError`),
terminating the process with that error, and a `model_not_found.log` with
a non-empty message is written into the output directory; the
post-extraction failure (archive present but extraction yields no model
file) is the same `FileNotFoundError` outcome, distinguished only in the
error detail, with the same log written. -/
theorem C4_model_not_found_logged (inp : EvalInput) :
    (joblibGlob inp.modelDirFS.files = [] →
      tarGlob inp.modelDirFS.files = [] →
      ∃ e msg,
        (evaluate_main inp).2 = .error e ∧
        isFileNotFoundError e = true ∧
        (resolvedOutputDir inp ++ "/model_not_found.log", OutFile.log msg) ∈
          (evaluate_main inp).1 ∧
        msg ≠ "") ∧
    (∀ t ts, joblibGlob inp.modelDirFS.files = [] →
      tarGlob inp.modelDirFS.files = t :: ts →
      joblibGlob (extractAll inp.modelDirFS t).files = [] →
      ∃ e msg,
        (evaluate_main inp).2 = .error e ∧
        isFileNotFoundError e = true ∧
        (resolvedOutputDir inp ++ "/model_not_found.log", OutFile.log msg) ∈
          (evaluate_main inp).1 ∧
        msg ≠ "") := by
  constructor
  · intro hj ht
    have hmain := evaluate_main_find_error inp _
      (find_no_candidates inp.modelDirFS (resolvedModelDir inp) hj ht)
    exact ⟨.fileNotFoundError
      ("No .joblib or .tar.gz model files found in " ++
        resolvedModelDir inp),
      ("No .joblib or .tar.gz model files found in " ++
        resolvedModelDir inp) ++
        "\nDirectory listings above indicate what is present.",
      by rw [hmain], rfl,
      by rw [hmain]; exact List.mem_cons_self _ _,
      append_ne_empty_right _ _ (by decide)⟩
  · intro t ts hj ht hx
    have hmain := evaluate_main_find_error inp _
      (find_extract_fail inp.modelDirFS (resolvedModelDir inp) t ts hj ht hx)
    exact ⟨.fileNotFoundError
      ("After extracting " ++ (resolvedModelDir inp ++ "/" ++ t) ++
        ", no .joblib model found in " ++ resolvedModelDir inp),
      ("After extracting " ++ (resolvedModelDir inp ++ "/" ++ t) ++
        ", no .joblib model found in " ++ resolvedModelDir inp) ++
        "\nDirectory listings above indicate what is present.",
      by rw [hmain], rfl,
      by rw [hmain]; exact List.mem_cons_self _ _,
      append_ne_empty_right _ _ (by decide)⟩

/-- Witness for C4 on a concrete run whose model directory is empty. -/
theorem C4_model_not_found_logged_witness :
    ∃ e msg,
      (evaluate_main ⟨none, none, none, ⟨none, none, none, none⟩,
        ⟨[], fun _ => []⟩, fun _ => .error (.otherError "boom"),
        .file []⟩).2 = .error e ∧
      isFileNotFoundError e = true ∧
      (resolvedOutputDir ⟨none, none, none, ⟨none, none, none, none⟩,
          ⟨[], fun _ => []⟩, fun _ => .error (.otherError "boom"),
          .file []⟩ ++ "/model_not_found.log", OutFile.log msg) ∈
        (evaluate_main ⟨none, none, none, ⟨none, none, none, none⟩,
          ⟨[], fun _ => []⟩, fun _ => .error (.otherError "boom"),
          .file []⟩).1 ∧
      msg ≠ "" :=
  (C4_model_not_found_logged _).1 rfl rfl

/-- C8: on a successful run — model resolution, deserialization and data
loading all return — the single write is `metrics.json`, whose record is
a JSON object with exactly one key `mse`, holding the mean-squared-error
between the model's predictions on the selected feature columns and the
true target column. -/
theorem C8_metrics_single_mse_key (inp : EvalInput) (fs2 : FS)
    (mp : String) (model : Features → ℚ) (df : List Row)
    (hfind : find_or_extract_model inp.modelDirFS (resolvedModelDir inp) =
      .ok (fs2, mp))
    (hload : inp.loadModel mp = .ok model)
    (hdata : load_data inp.testData = .ok df) :
    evaluate_main inp =
      ([(resolvedOutputDir inp ++ "/metrics.json",
         .metrics [("mse", mean_squared_error (df.map Row.price)
           ((df.map selectFeatures).map model))])],
       .ok [("mse", mean_squared_error (df.map Row.price)
         ((df.map selectFeatures).map model))]) :=
  evaluate_main_success inp fs2 mp model df hfind hload hdata

/-- Sample successful Evaluator run: a direct model file, a deserializer
yielding the model that predicts the first feature, one CSV row. -/
def sampleEvalInput : EvalInput :=
  { cli_model_dir := some "/md"
    cli_test_data := some "/td"
    cli_output_dir := some "/od"
    env := ⟨none, none, none, none⟩
    modelDirFS := ⟨["model.joblib"], fun _ => []⟩
    loadModel := fun _ => .ok (fun f => f.size_sqft)
    testData := .dir [("t.csv", [⟨1, 2, 3, 10⟩])] }

/-- Witness for C8 on `sampleEvalInput`. -/
theorem C8_metrics_single_mse_key_witness :
    evaluate_main sampleEvalInput =
      ([(resolvedOutputDir sampleEvalInput ++ "/metrics.json",
         .metrics [("mse", mean_squared_error
           (([⟨1, 2, 3, 10⟩] : List Row).map Row.price)
           ((([⟨1, 2, 3, 10⟩] : List Row).map selectFeatures).map
             (fun f => f.size_sqft)))])],
       .ok [("mse", mean_squared_error
         (([⟨1, 2, 3, 10⟩] : List Row).map Row.price)
         ((([⟨1, 2, 3, 10⟩] : List Row).map selectFeatures).map
           (fun f => f.size_sqft)))]) :=
  C8_metrics_single_mse_key sampleEvalInput sampleEvalInput.modelDirFS
    (resolvedModelDir sampleEvalInput ++ "/" ++ "model.joblib")
    (fun f => f.size_sqft) [⟨1, 2, 3, 10⟩]
    (find_head sampleEvalInput.modelDirFS (resolvedModelDir sampleEvalInput)
      "model.joblib" [] (by decide))
    rfl rfl

/-- C10: metrics writing is atomic with respect to failure — whenever a
run's outcome is an error (whatever step raised it), every file the run
wrote into the output directory is a log file, named
`model_not_found.log` or `evaluation_error.log`; in particular no
`metrics.json` is created by that run. -/
theorem C10_no_metrics_on_failure (inp : EvalInput) (e : PyError)
    (h : (evaluate_main inp).2 = .error e) :
    ∀ p file, (p, file) ∈ (evaluate_main inp).1 →
      (∃ msg, file = OutFile.log msg) ∧
      (p = resolvedOutputDir inp ++ "/model_not_found.log" ∨
        p = resolvedOutputDir inp ++ "/evaluation_error.log") := by
  intro p file hmem
  cases hfind : find_or_extract_model inp.modelDirFS (resolvedModelDir inp)
    with
  | error e2 =>
    rw [evaluate_main_find_error inp e2 hfind] at hmem
    simp only [List.mem_cons, List.mem_singleton, List.not_mem_nil,
      or_false] at hmem
    rcases hmem with h1 | h1
    · exact ⟨⟨_, congrArg Prod.snd h1⟩, Or.inl (congrArg Prod.fst h1)⟩
    · exact ⟨⟨_, congrArg Prod.snd h1⟩, Or.inr (congrArg Prod.fst h1)⟩
  | ok pr =>
    obtain ⟨fs2, mp⟩ := pr
    cases hload : inp.loadModel mp with
    | error e2 =>
      rw [evaluate_main_load_model_error inp fs2 mp e2 hfind hload] at hmem
      simp only [List.mem_singleton, List.not_mem_nil, or_false,
        List.mem_cons] at hmem
      exact ⟨⟨_, congrArg Prod.snd hmem⟩, Or.inr (congrArg Prod.fst hmem)⟩
    | ok model =>
      cases hdata : load_data inp.testData with
      | error e2 =>
        rw [evaluate_main_data_error inp fs2 mp model e2 hfind hload hdata]
          at hmem
        simp only [List.mem_singleton, List.not_mem_nil, or_false,
          List.mem_cons] at hmem
        exact ⟨⟨_, congrArg Prod.snd hmem⟩, Or.inr (congrArg Prod.fst hmem)⟩
      | ok df =>
        rw [evaluate_main_success inp fs2 mp model df hfind hload hdata] at h
        simp at h

/-- Witness for C10 on a run failing at deserialization: the single write
is the error log, not a metrics file. -/
theorem C10_no_metrics_on_failure_witness :
    (∃ msg, OutFile.log "boom" = OutFile.log msg) ∧
    (resolvedOutputDir ⟨none, none, none, ⟨none, none, none, none⟩,
        ⟨["model.joblib"], fun _ => []⟩,
        fun _ => .error (.otherError "boom"), .file []⟩ ++
        "/evaluation_error.log" =
      resolvedOutputDir ⟨none, none, none, ⟨none, none, none, none⟩,
        ⟨["model.joblib"], fun _ => []⟩,
        fun _ => .error (.otherError "boom"), .file []⟩ ++
        "/model_not_found.log" ∨
      resolvedOutputDir ⟨none, none, none, ⟨none, none, none, none⟩,
        ⟨["model.joblib"], fun _ => []⟩,
        fun _ => .error (.otherError "boom"), .file []⟩ ++
        "/evaluation_error.log" =
      resolvedOutputDir ⟨none, none, none, ⟨none, none, none, none⟩,
        ⟨["model.joblib"], fun _ => []⟩,
        fun _ => .error (.otherError "boom"), .file []⟩ ++
        "/evaluation_error.log") :=
  C10_no_metrics_on_failure
    ⟨none, none, none, ⟨none, none, none, none⟩,
      ⟨["model.joblib"], fun _ => []⟩,
      fun _ => .error (.otherError "boom"), .file []⟩
    (.otherError "boom") rfl
    (resolvedOutputDir ⟨none, none, none, ⟨none, none, none, none⟩,
      ⟨["model.joblib"], fun _ => []⟩,
      fun _ => .error (.otherError "boom"), .file []⟩ ++
      "/evaluation_error.log")
    (OutFile.log "boom") (by exact List.mem_cons_self _ _)
